import Mathlib

/-!
# Event Notifications integration data source

A shallow embedding of `ibm/service/eventnotification/data_source_ibm_en_integration.go`:
the read callback `dataSourceIBMEnIntegrationRead` and the flattening helper
`enKMSIntegrationFlattenMetadata`, followed by the properties proved about them.

The read callback is stateful Go code.  It is embedded as a function on an explicit
`World` (the host state handle `d`, the remote requests issued so far, the debug log),
parameterised by an `Env` holding everything the callback receives from outside:
the session's client, the host's acceptance of a write, and the timestamp conversion.
An invocation ends by returning diagnostics or by a panic on a nil pointer; the world is
kept in both cases.
-/

set_option autoImplicit false

namespace EventNotification

/-! ## Data model -/

/-- A Go `error`, identified with the text returned by its `Error()` method. -/
structure GoError where
  Error : String
deriving DecidableEq, Repr

/-- The remote service's native timestamp (`strfmt.DateTime`), as a UTC civil time. -/
structure DateTime where
  year : Nat
  month : Nat
  day : Nat
  hour : Nat
  minute : Nat
  second : Nat
deriving DecidableEq, Repr

/-- The SDK struct `en.IntegrationMetadata`: three `*string` fields, `none` being Go `nil`. -/
structure IntegrationMetadata where
  Endpoint : Option String
  CRN : Option String
  RootKeyID : Option String
deriving DecidableEq, Repr

/-- The SDK result of the get-integration call, restricted to the fields the callback reads:
`Type *string` (named `Type_` here, `Type` being reserved), `Metadata *IntegrationMetadata`, `UpdatedAt *strfmt.DateTime`. -/
structure IntegrationGetResponse where
  Type_ : Option String
  Metadata : Option IntegrationMetadata
  UpdatedAt : Option DateTime
deriving DecidableEq, Repr

/-- The SDK struct `en.GetIntegrationOptions`; `&en.GetIntegrationOptions{}` has both
pointers `nil`. -/
structure GetIntegrationOptions where
  InstanceID : Option String := none
  ID : Option String := none
deriving DecidableEq, Repr

/-- The SDK setter `SetInstanceID`: stores a pointer to the given string. -/
def GetIntegrationOptions.SetInstanceID (o : GetIntegrationOptions) (instanceID : String) :
    GetIntegrationOptions :=
  { o with InstanceID := some instanceID }

/-- The SDK setter `SetID`: stores a pointer to the given string. -/
def GetIntegrationOptions.SetID (o : GetIntegrationOptions) (id : String) :
    GetIntegrationOptions :=
  { o with ID := some id }

/-- A Go `map[string]interface{}` whose values are `*string`: an association list with
at most one entry per key. -/
abbrev GoMap := List (String × Option String)

/-- Map assignment `m[k] = v`: overwrite the entry for `k`, or add one. -/
def GoMap.set : GoMap → String → Option String → GoMap
  | [], k, v => [(k, v)]
  | (k', v') :: rest, k, v => if k' = k then (k, v) :: rest else (k', v') :: GoMap.set rest k v

/-- Map lookup `m[k]` with the comma-ok flag: `none` when the key is missing. -/
def GoMap.get : GoMap → String → Option (Option String)
  | [], _ => none
  | (k', v') :: rest, k => if k' = k then some v' else GoMap.get rest k

/-- The keys of a map. -/
def GoMap.keys (m : GoMap) : List String := m.map Prod.fst

/-- The values the callback hands to `d.Set`. -/
inductive Value where
  | str (s : String)
  | strPtr (p : Option String)
  | list (xs : List GoMap)
deriving DecidableEq, Repr

/-- The host framework's per-resource state handle `*schema.ResourceData`: the configured
inputs, the record id (`""` when unset) and the fields written so far. -/
structure ResourceData where
  config : List (String × String)
  id : String
  fields : List (String × Value)
deriving DecidableEq, Repr

/-- The call `d.Get(key).(string)` on a string field: the configured value, or the zero
value `""`. -/
def ResourceData.Get (d : ResourceData) (key : String) : String :=
  (d.config.lookup key).getD ""

/-- The call `d.SetId(v)`. -/
def ResourceData.SetId (d : ResourceData) (v : String) : ResourceData :=
  { d with id := v }

/-- Overwrite or add the entry of a written field. -/
def setField : List (String × Value) → String → Value → List (String × Value)
  | [], k, v => [(k, v)]
  | (k', v') :: rest, k, v => if k' = k then (k, v) :: rest else (k', v') :: setField rest k v

/-- The value of a written field, `none` when the field was never written. -/
def ResourceData.field (d : ResourceData) (key : String) : Option Value :=
  d.fields.lookup key

/-- The call `d.Set(key, value)`.  The host framework decides whether it accepts the write
(`reject key value = none`) or fails it with an error; a failed write leaves the handle
as it was. -/
def ResourceData.Set (reject : String → Value → Option GoError) (d : ResourceData)
    (key : String) (value : Value) : ResourceData × Option GoError :=
  match reject key value with
  | some err => (d, some err)
  | none => ({ d with fields := setField d.fields key value }, none)

/-- Modelled from the spec: `flex.TerraformErrorf` and the `TerraformProblem` it returns are
not under src.  The spec describes the diagnostic as carrying the originating error, a
human-readable message and the fixed operation tag, so a problem records the four
arguments of the call. -/
structure TerraformProblem where
  err : GoError
  customtext : String
  resourceName : String
  operation : String
deriving DecidableEq, Repr

/-- Modelled from the spec: `flex.TerraformErrorf`, see `TerraformProblem`. -/
def TerraformErrorf (err : GoError) (customtext resourceName operation : String) :
    TerraformProblem :=
  { err := err, customtext := customtext, resourceName := resourceName,
    operation := operation }

/-- The result type `diag.Diagnostics`; `[]` is Go `nil`. -/
abbrev Diagnostics := List TerraformProblem

/-- Modelled from the spec: `TerraformProblem.GetDiag` is not under src.  The spec has every
failure surfaced as one diagnostic carrying the problem's message. -/
def TerraformProblem.GetDiag (p : TerraformProblem) : Diagnostics := [p]

/-- The SDK client returned by the session.  Its get-integration call answers a request
with the Go pair `(result, err)`: an error, or a nil error next to a result pointer, which
the SDK may leave nil (`none`). -/
structure EnClient where
  GetIntegrationWithContext :
    GetIntegrationOptions → Except GoError (Option IntegrationGetResponse)

/-- Everything the callback receives from outside: `meta` (the session, whose
`EventNotificationsApiV1()` yields a client or an error), the host's verdict on a write,
and `flex.DateTimeToString`, which is not under src. -/
structure Env where
  EventNotificationsApiV1 : Except GoError EnClient
  reject : String → Value → Option GoError
  DateTimeToString : Option DateTime → String

/-- The observable state around one invocation: the state handle `d`, the get-integration
requests issued so far (oldest first) and the problems written to the debug log. -/
structure World where
  d : ResourceData
  remoteCalls : List GetIntegrationOptions
  debugLog : List TerraformProblem
deriving DecidableEq, Repr

/-- How an invocation ends: the callback returns its diagnostics, or the Go runtime panics
on the dereference of a nil pointer. -/
inductive Outcome where
  | returned (diags : Diagnostics)
  | panicked
deriving DecidableEq, Repr

/-! ## The two functions of the source file -/

/-- The helper `enKMSIntegrationFlattenMetadata`. -/
def enKMSIntegrationFlattenMetadata (metadataItem : IntegrationMetadata) : List GoMap :=
  let metadataMap : GoMap := []
  let metadataMap :=
    if metadataItem.Endpoint ≠ none then metadataMap.set "endpoint" metadataItem.Endpoint
    else metadataMap
  let metadataMap :=
    if metadataItem.CRN ≠ none then metadataMap.set "crn" metadataItem.CRN
    else metadataMap
  let metadataMap :=
    if metadataItem.RootKeyID ≠ none then metadataMap.set "root_key_id" metadataItem.RootKeyID
    else metadataMap
  [metadataMap]

/-- The read callback `dataSourceIBMEnIntegrationRead`: the world after the call and how
the call ended.  The result pointer of the remote call is used unchecked, so a nil result
next to a nil error panics at `result.Type`, after the id was set. -/
def dataSourceIBMEnIntegrationRead (env : Env) (w : World) : World × Outcome :=
  match env.EventNotificationsApiV1 with
  | .error err =>
    let tfErr := TerraformErrorf err err.Error "(Data) ibm_en_integration" "read"
    ({ w with debugLog := w.debugLog ++ [tfErr] }, .returned tfErr.GetDiag)
  | .ok enClient =>
    let options : GetIntegrationOptions := {}
    let options := options.SetInstanceID (w.d.Get "instance_guid")
    let options := options.SetID (w.d.Get "integration_id")
    let w := { w with remoteCalls := w.remoteCalls ++ [options] }
    match enClient.GetIntegrationWithContext options with
    | .error err =>
      let tfErr := TerraformErrorf err ("GetIntegrationWithContext failed: " ++ err.Error)
        "(Data) ibm_en_integration" "read"
      ({ w with debugLog := w.debugLog ++ [tfErr] }, .returned tfErr.GetDiag)
    | .ok result =>
      match options.InstanceID, options.ID with
      | some instanceID, some id =>
        let d := w.d.SetId (instanceID ++ "/" ++ id)
        match result with
        | none => ({ w with d := d }, .panicked)
        | some result =>
          match d.Set env.reject "type" (.strPtr result.Type_) with
          | (d, some err) =>
            let tfErr := TerraformErrorf err ("Error setting type: " ++ err.Error)
              "(Data) ibm_en_integration" "read"
            ({ w with d := d }, .returned tfErr.GetDiag)
          | (d, none) =>
            let d :=
              match result.Metadata with
              | some metadata =>
                (d.Set env.reject "metadata"
                  (.list (enKMSIntegrationFlattenMetadata metadata))).1
              | none => d
            match d.Set env.reject "updated_at"
                (.str (env.DateTimeToString result.UpdatedAt)) with
            | (d, some err) =>
              let tfErr := TerraformErrorf err ("Error setting updated_at: " ++ err.Error)
                "(Data) ibm_en_integration" "read"
              ({ w with d := d }, .returned tfErr.GetDiag)
            | (d, none) => ({ w with d := d }, .returned [])
      | _, _ => (w, .panicked)

/-! ## Vocabulary of the statements -/

/-- The request the callback builds from the two configured inputs of `d`. -/
def lookupRequest (d : ResourceData) : GetIntegrationOptions :=
  { InstanceID := some (d.Get "instance_guid"), ID := some (d.Get "integration_id") }

/-- A state handle as the host passes it to a read: the two inputs configured, no id, no
field written. -/
def freshData (instance_guid integration_id : String) : ResourceData :=
  { config := [("instance_guid", instance_guid), ("integration_id", integration_id)],
    id := "", fields := [] }

/-- The world before a read of the given lookup key: nothing called, nothing logged. -/
def freshWorld (instance_guid integration_id : String) : World :=
  { d := freshData instance_guid integration_id, remoteCalls := [], debugLog := [] }

/-- A host that accepts every write. -/
def acceptAll : String → Value → Option GoError := fun _ _ => none

/-- A host that fails the write of one field with the given error and accepts the others. -/
def rejectField (field : String) (err : GoError) : String → Value → Option GoError :=
  fun key _ => if key = field then some err else none

/-- Two decimal digits of a number below 100. -/
def twoDigits (n : Nat) : String :=
  String.mk [Nat.digitChar (n / 10 % 10), Nat.digitChar (n % 10)]

/-- Modelled from the spec: `flex.DateTimeToString` is not under src.  The spec calls its
result an ISO-formatted timestamp and gives `2023-01-01T00:00:00Z` for that instant; a nil
timestamp, on which the spec is silent, is given the empty string. -/
def DateTimeToString : Option DateTime → String
  | none => ""
  | some t =>
    twoDigits (t.year / 100) ++ twoDigits t.year ++ "-" ++ twoDigits t.month ++ "-" ++
      twoDigits t.day ++ "T" ++ twoDigits t.hour ++ ":" ++ twoDigits t.minute ++ ":" ++
      twoDigits t.second ++ "Z"

/-- A client whose get-integration call gives the same answer to every request. -/
def clientReturning (answer : Except GoError (Option IntegrationGetResponse)) : EnClient :=
  { GetIntegrationWithContext := fun _ => answer }

/-- An environment with a working session whose remote call gives the fixed answer. -/
def envReturning (answer : Except GoError (Option IntegrationGetResponse))
    (reject : String → Value → Option GoError) : Env :=
  { EventNotificationsApiV1 := .ok (clientReturning answer), reject := reject,
    DateTimeToString := DateTimeToString }

/-- An environment whose session fails to hand out a client. -/
def envNoClient (err : GoError) : Env :=
  { EventNotificationsApiV1 := .error err, reject := acceptAll,
    DateTimeToString := DateTimeToString }

/-- The response of the spec's scenario: type `kms`, all three metadata fields present,
updated at 2023-01-01T00:00:00Z. -/
def scenarioResponse : IntegrationGetResponse :=
  { Type_ := some "kms",
    Metadata := some { Endpoint := some "https://e", CRN := some "crn:v1:...",
                       RootKeyID := some "key-1" },
    UpdatedAt := some { year := 2023, month := 1, day := 1, hour := 0, minute := 0,
                        second := 0 } }

/-- A response without metadata. -/
def noMetadataResponse : IntegrationGetResponse :=
  { scenarioResponse with Metadata := none }

/-- A response whose metadata is present but carries no endpoint. -/
def noEndpointResponse : IntegrationGetResponse :=
  { scenarioResponse with
    Metadata := some { Endpoint := none, CRN := some "crn:v1:...", RootKeyID := some "key-1" } }

/-- The problem reported when the remote call fails with `err`. -/
def remoteReadProblem (err : GoError) : TerraformProblem :=
  TerraformErrorf err ("GetIntegrationWithContext failed: " ++ err.Error)
    "(Data) ibm_en_integration" "read"

/-- The state handle after the id and the `type` write, the host having accepted it. -/
def afterType (d : ResourceData) (result : IntegrationGetResponse) : ResourceData :=
  { (d.SetId (d.Get "instance_guid" ++ "/" ++ d.Get "integration_id")) with
    fields := setField d.fields "type" (.strPtr result.Type_) }

/-- The state handle after the optional `metadata` write, whose error is dropped. -/
def afterMetadata (reject : String → Value → Option GoError) (d : ResourceData)
    (result : IntegrationGetResponse) : ResourceData :=
  match result.Metadata with
  | some metadata =>
    ((afterType d result).Set reject "metadata"
      (.list (enKMSIntegrationFlattenMetadata metadata))).1
  | none => afterType d result

/-! ## Written fields -/

theorem lookup_setField_self (fs : List (String × Value)) (k : String) (v : Value) :
    (setField fs k v).lookup k = some v := by
  induction fs with
  | nil => simp [setField, List.lookup]
  | cons p rest ih =>
    obtain ⟨k', v'⟩ := p
    by_cases h : k' = k
    · simp [setField, h, List.lookup]
    · have h' : (k == k') = false := by simpa using fun e => h e.symm
      simp [setField, h, List.lookup, h', ih]

/-- Writing one field leaves the value of every other field as it was. -/
theorem lookup_setField_ne (fs : List (String × Value)) (k k' : String) (v : Value)
    (hne : k' ≠ k) : (setField fs k v).lookup k' = fs.lookup k' := by
  induction fs with
  | nil =>
    have h' : (k' == k) = false := by simpa using hne
    simp [setField, List.lookup, h']
  | cons p rest ih =>
    obtain ⟨k0, v0⟩ := p
    by_cases h : k0 = k
    · subst h
      have h' : (k' == k0) = false := by simpa using hne
      simp [setField, List.lookup, h']
    · by_cases h2 : k' = k0
      · subst h2
        simp [setField, h, List.lookup]
      · have h' : (k' == k0) = false := by simpa using h2
        simp [setField, h, List.lookup, h', ih]

/-! ## The flattening helper -/

theorem flatten_get (m : IntegrationMetadata) :
    ∃ mp : GoMap, enKMSIntegrationFlattenMetadata m = [mp] ∧
      ∀ k : String, mp.get k =
        if k = "endpoint" then m.Endpoint.map some
        else if k = "crn" then m.CRN.map some
        else if k = "root_key_id" then m.RootKeyID.map some
        else none := by
  obtain ⟨e, c, r⟩ := m
  refine ⟨_, rfl, ?_⟩
  intro k
  by_cases h1 : k = "endpoint"
  · subst h1
    cases e <;> cases c <;> cases r <;> simp [GoMap.set, GoMap.get]
  by_cases h2 : k = "crn"
  · subst h2
    cases e <;> cases c <;> cases r <;> simp [GoMap.set, GoMap.get]
  by_cases h3 : k = "root_key_id"
  · subst h3
    cases e <;> cases c <;> cases r <;> simp [GoMap.set, GoMap.get]
  have h1' : ¬ "endpoint" = k := fun h => h1 h.symm
  have h2' : ¬ "crn" = k := fun h => h2 h.symm
  have h3' : ¬ "root_key_id" = k := fun h => h3 h.symm
  cases e <;> cases c <;> cases r <;> simp [GoMap.set, GoMap.get, h1, h2, h3, h1', h2', h3']


/-- C10: `enKMSIntegrationFlattenMetadata` returns a list of exactly one map; that map
holds `endpoint` (resp. `crn`, `root_key_id`) exactly when the item's `Endpoint` (resp.
`CRN`, `RootKeyID`) is non-nil, with that field as its value, and holds no other key; an
item whose three fields are nil gives a one-element list holding the empty map. -/
theorem enKMSIntegrationFlattenMetadata_spec :
    (∀ m : IntegrationMetadata, ∃ mp : GoMap,
      enKMSIntegrationFlattenMetadata m = [mp] ∧
      (enKMSIntegrationFlattenMetadata m).length = 1 ∧
      (∀ k : String, mp.get k =
        if k = "endpoint" then m.Endpoint.map some
        else if k = "crn" then m.CRN.map some
        else if k = "root_key_id" then m.RootKeyID.map some
        else none)) ∧
    enKMSIntegrationFlattenMetadata { Endpoint := none, CRN := none, RootKeyID := none }
      = [[]] := by
  refine ⟨fun m => ?_, rfl⟩
  obtain ⟨mp, h, hk⟩ := flatten_get m
  exact ⟨mp, h, by rw [h]; rfl, hk⟩

/-! ## Unfolding the read callback along each of its paths -/

theorem read_eq_of_client_error (env : Env) (w : World) (err : GoError)
    (hc : env.EventNotificationsApiV1 = .error err) :
    dataSourceIBMEnIntegrationRead env w =
      ({ w with debugLog := w.debugLog ++
            [TerraformErrorf err err.Error "(Data) ibm_en_integration" "read"] },
        .returned [TerraformErrorf err err.Error "(Data) ibm_en_integration" "read"]) := by
  simp [dataSourceIBMEnIntegrationRead, hc, TerraformProblem.GetDiag]

/-- The result of the callback when the remote call fails. -/
theorem read_eq_of_remote_error (env : Env) (w : World) (c : EnClient) (err : GoError)
    (hc : env.EventNotificationsApiV1 = .ok c)
    (hr : c.GetIntegrationWithContext (lookupRequest w.d) = .error err) :
    dataSourceIBMEnIntegrationRead env w =
      ({ w with remoteCalls := w.remoteCalls ++ [lookupRequest w.d],
                debugLog := w.debugLog ++ [remoteReadProblem err] },
        .returned [remoteReadProblem err]) := by
  have hr' : c.GetIntegrationWithContext
      { InstanceID := some (w.d.Get "instance_guid"), ID := some (w.d.Get "integration_id") }
      = .error err := hr
  simp only [dataSourceIBMEnIntegrationRead, hc, GetIntegrationOptions.SetInstanceID,
    GetIntegrationOptions.SetID, hr']
  rfl

/-- The result of the callback when the host rejects the `type` write. -/
theorem read_eq_of_type_rejected (env : Env) (w : World) (c : EnClient)
    (result : IntegrationGetResponse) (err : GoError)
    (hc : env.EventNotificationsApiV1 = .ok c)
    (hr : c.GetIntegrationWithContext (lookupRequest w.d) = .ok (some result))
    (ht : env.reject "type" (.strPtr result.Type_) = some err) :
    dataSourceIBMEnIntegrationRead env w =
      ({ w with remoteCalls := w.remoteCalls ++ [lookupRequest w.d],
                d := w.d.SetId (w.d.Get "instance_guid" ++ "/" ++ w.d.Get "integration_id") },
        .returned [TerraformErrorf err ("Error setting type: " ++ err.Error)
          "(Data) ibm_en_integration" "read"]) := by
  have hr' : c.GetIntegrationWithContext
      { InstanceID := some (w.d.Get "instance_guid"), ID := some (w.d.Get "integration_id") }
      = .ok (some result) := hr
  simp only [dataSourceIBMEnIntegrationRead, hc, GetIntegrationOptions.SetInstanceID,
    GetIntegrationOptions.SetID, hr', ResourceData.Set, ResourceData.SetId, ht]
  rfl

/-- The result of the callback when the host rejects the `updated_at` write. -/
theorem read_eq_of_updated_at_rejected (env : Env) (w : World) (c : EnClient)
    (result : IntegrationGetResponse) (err : GoError)
    (hc : env.EventNotificationsApiV1 = .ok c)
    (hr : c.GetIntegrationWithContext (lookupRequest w.d) = .ok (some result))
    (ht : env.reject "type" (.strPtr result.Type_) = none)
    (hu : env.reject "updated_at" (.str (env.DateTimeToString result.UpdatedAt)) = some err) :
    dataSourceIBMEnIntegrationRead env w =
      ({ w with remoteCalls := w.remoteCalls ++ [lookupRequest w.d],
                d := afterMetadata env.reject w.d result },
        .returned [TerraformErrorf err ("Error setting updated_at: " ++ err.Error)
          "(Data) ibm_en_integration" "read"]) := by
  have hr' : c.GetIntegrationWithContext
      { InstanceID := some (w.d.Get "instance_guid"), ID := some (w.d.Get "integration_id") }
      = .ok (some result) := hr
  simp only [dataSourceIBMEnIntegrationRead, hc, GetIntegrationOptions.SetInstanceID,
    GetIntegrationOptions.SetID, hr', ResourceData.Set, ResourceData.SetId, ht, hu]
  cases hm : result.Metadata <;>
    simp [afterMetadata, afterType, hm, ResourceData.Set, ResourceData.SetId,
      TerraformProblem.GetDiag, lookupRequest]

/-- The result of the callback when the host accepts the `type` and `updated_at` writes. -/
theorem read_eq_of_success (env : Env) (w : World) (c : EnClient)
    (result : IntegrationGetResponse)
    (hc : env.EventNotificationsApiV1 = .ok c)
    (hr : c.GetIntegrationWithContext (lookupRequest w.d) = .ok (some result))
    (ht : env.reject "type" (.strPtr result.Type_) = none)
    (hu : env.reject "updated_at" (.str (env.DateTimeToString result.UpdatedAt)) = none) :
    dataSourceIBMEnIntegrationRead env w =
      ({ w with remoteCalls := w.remoteCalls ++ [lookupRequest w.d],
                d := { (afterMetadata env.reject w.d result) with
                       fields := setField (afterMetadata env.reject w.d result).fields
                         "updated_at" (.str (env.DateTimeToString result.UpdatedAt)) } },
        .returned []) := by
  have hr' : c.GetIntegrationWithContext
      { InstanceID := some (w.d.Get "instance_guid"), ID := some (w.d.Get "integration_id") }
      = .ok (some result) := hr
  simp only [dataSourceIBMEnIntegrationRead, hc, GetIntegrationOptions.SetInstanceID,
    GetIntegrationOptions.SetID, hr', ResourceData.Set, ResourceData.SetId, ht, hu]
  cases hm : result.Metadata <;>
    simp [afterMetadata, afterType, hm, ResourceData.Set, ResourceData.SetId, lookupRequest]

/-- The result of the callback when the remote call gives a nil result next to a nil
error: the request was issued and the id set when `result.Type` panics. -/
theorem read_eq_of_nil_result (env : Env) (w : World) (c : EnClient)
    (hc : env.EventNotificationsApiV1 = .ok c)
    (hr : c.GetIntegrationWithContext (lookupRequest w.d) = .ok none) :
    dataSourceIBMEnIntegrationRead env w =
      ({ w with remoteCalls := w.remoteCalls ++ [lookupRequest w.d],
                d := w.d.SetId (w.d.Get "instance_guid" ++ "/" ++ w.d.Get "integration_id") },
        .panicked) := by
  have hr' : c.GetIntegrationWithContext
      { InstanceID := some (w.d.Get "instance_guid"), ID := some (w.d.Get "integration_id") }
      = .ok none := hr
  simp only [dataSourceIBMEnIntegrationRead, hc, GetIntegrationOptions.SetInstanceID,
    GetIntegrationOptions.SetID, hr']
  rfl

/-! ## The read callback: failure of the session and of the remote call -/

/-- C6: when the session hands out no client, the callback returns the one diagnostic
built from the originating error, with that error's message as text and the fixed tag
`(Data) ibm_en_integration` / `read`; no get-integration request is issued and the state
handle is left as it was. -/
theorem read_client_error (env : Env) (w : World) (err : GoError)
    (hc : env.EventNotificationsApiV1 = .error err) :
    ∃ w' : World,
      dataSourceIBMEnIntegrationRead env w =
        (w', .returned [TerraformErrorf err err.Error "(Data) ibm_en_integration" "read"]) ∧
      w'.remoteCalls = w.remoteCalls ∧ w'.d = w.d := by
  exact ⟨_, read_eq_of_client_error env w err hc, rfl, rfl⟩

/-- The session fails with `no session` on a fresh handle for (`inst-1`, `int-1`). -/
theorem read_client_error_witness :
    (envNoClient ⟨"no session"⟩).EventNotificationsApiV1 = .error ⟨"no session"⟩ ∧
    ∃ w' : World,
      dataSourceIBMEnIntegrationRead (envNoClient ⟨"no session"⟩) (freshWorld "inst-1" "int-1") =
        (w', .returned [TerraformErrorf ⟨"no session"⟩ "no session"
          "(Data) ibm_en_integration" "read"]) ∧
      w'.remoteCalls = [] ∧ w'.d = freshData "inst-1" "int-1" :=
  ⟨rfl, read_client_error (envNoClient ⟨"no session"⟩) (freshWorld "inst-1" "int-1")
    ⟨"no session"⟩ rfl⟩

/-- C4: when the remote get-integration call returns an error, the callback returns a
non-empty list of diagnostics and the state handle is exactly as on entry: no field
written, the id as it was (unset if it was unset). -/
theorem read_remote_error (env : Env) (w : World) (c : EnClient) (err : GoError)
    (hc : env.EventNotificationsApiV1 = .ok c)
    (hr : c.GetIntegrationWithContext (lookupRequest w.d) = .error err) :
    ∃ (w' : World) (diags : Diagnostics),
      dataSourceIBMEnIntegrationRead env w = (w', .returned diags) ∧
      diags ≠ [] ∧ w'.d = w.d ∧ w'.d.id = w.d.id ∧ w'.d.fields = w.d.fields := by
  refine ⟨_, _, read_eq_of_remote_error env w c err hc hr, ?_, rfl, rfl, rfl⟩
  simp

/-- The remote call answers `not found` on a fresh handle for (`inst-1`, `int-1`): a diagnostic comes back, the id stays unset and no field is written. -/
theorem read_remote_error_witness :
    (envReturning (.error ⟨"not found"⟩) acceptAll).EventNotificationsApiV1
      = .ok (clientReturning (.error ⟨"not found"⟩)) ∧
    (clientReturning (.error ⟨"not found"⟩)).GetIntegrationWithContext
      (lookupRequest (freshWorld "inst-1" "int-1").d) = .error ⟨"not found"⟩ ∧
    ∃ (w' : World) (diags : Diagnostics),
      dataSourceIBMEnIntegrationRead (envReturning (.error ⟨"not found"⟩) acceptAll)
        (freshWorld "inst-1" "int-1") = (w', .returned diags) ∧
      diags ≠ [] ∧ w'.d = freshData "inst-1" "int-1" ∧
      w'.d.id = "" ∧ w'.d.fields = [] :=
  ⟨rfl, rfl, read_remote_error (envReturning (.error ⟨"not found"⟩) acceptAll)
    (freshWorld "inst-1" "int-1") (clientReturning (.error ⟨"not found"⟩)) ⟨"not found"⟩
    rfl rfl⟩

/-! ## The read callback: the state handle after the remote call succeeded -/

theorem afterMetadata_id (reject : String → Value → Option GoError) (d : ResourceData)
    (result : IntegrationGetResponse) :
    (afterMetadata reject d result).id = d.Get "instance_guid" ++ "/" ++ d.Get "integration_id" := by
  unfold afterMetadata
  cases result.Metadata with
  | none => rfl
  | some md =>
    simp only [ResourceData.Set]
    cases reject "metadata" (.list (enKMSIntegrationFlattenMetadata md)) <;> rfl

/-- The metadata step keeps the written `type`. -/
theorem afterMetadata_type (reject : String → Value → Option GoError) (d : ResourceData)
    (result : IntegrationGetResponse) :
    (afterMetadata reject d result).field "type" = some (.strPtr result.Type_) := by
  unfold afterMetadata
  cases result.Metadata with
  | none => simp [afterType, ResourceData.field, lookup_setField_self]
  | some md =>
    simp only [ResourceData.Set]
    cases reject "metadata" (.list (enKMSIntegrationFlattenMetadata md)) with
    | none =>
      simp only [ResourceData.field, afterType]
      rw [lookup_setField_ne _ _ _ _ (by decide), lookup_setField_self]
    | some e => simp [afterType, ResourceData.field, lookup_setField_self]

/-- Without metadata in the response the `metadata` field keeps its value. -/
theorem afterMetadata_metadata_none (reject : String → Value → Option GoError)
    (d : ResourceData) (result : IntegrationGetResponse) (hm : result.Metadata = none) :
    (afterMetadata reject d result).field "metadata" = d.field "metadata" := by
  simp only [afterMetadata, hm, afterType, ResourceData.field]
  exact lookup_setField_ne _ _ _ _ (by decide)

/-- With metadata in the response and the write accepted, the field holds the flattened item. -/
theorem afterMetadata_metadata_some (reject : String → Value → Option GoError)
    (d : ResourceData) (result : IntegrationGetResponse) (md : IntegrationMetadata)
    (hm : result.Metadata = some md)
    (ha : reject "metadata" (.list (enKMSIntegrationFlattenMetadata md)) = none) :
    (afterMetadata reject d result).field "metadata"
      = some (.list (enKMSIntegrationFlattenMetadata md)) := by
  simp only [afterMetadata, hm, ResourceData.Set, ha, ResourceData.field]
  exact lookup_setField_self _ _ _

/-- Whatever the host does with the writes, a read whose remote call succeeded returns, and
the id of the state handle is then the composite one. -/
theorem read_of_remote_ok (env : Env) (w : World) (c : EnClient)
    (result : IntegrationGetResponse)
    (hc : env.EventNotificationsApiV1 = .ok c)
    (hr : c.GetIntegrationWithContext (lookupRequest w.d) = .ok (some result)) :
    ∃ (w' : World) (diags : Diagnostics),
      dataSourceIBMEnIntegrationRead env w = (w', .returned diags) ∧
      w'.d.id = w.d.Get "instance_guid" ++ "/" ++ w.d.Get "integration_id" ∧
      w'.remoteCalls = w.remoteCalls ++ [lookupRequest w.d] ∧
      (result.Metadata = none → w'.d.field "metadata" = w.d.field "metadata") := by
  cases ht : env.reject "type" (.strPtr result.Type_) with
  | some err =>
    exact ⟨_, _, read_eq_of_type_rejected env w c result err hc hr ht, rfl, rfl, fun _ => rfl⟩
  | none =>
    cases hu : env.reject "updated_at" (.str (env.DateTimeToString result.UpdatedAt)) with
    | some err =>
      exact ⟨_, _, read_eq_of_updated_at_rejected env w c result err hc hr ht hu,
        afterMetadata_id _ _ _, rfl, fun hm => afterMetadata_metadata_none _ _ _ hm⟩
    | none =>
      refine ⟨_, _, read_eq_of_success env w c result hc hr ht hu,
        afterMetadata_id _ _ _, rfl, fun hm => ?_⟩
      simp only [ResourceData.field]
      rw [lookup_setField_ne _ _ _ _ (by decide)]
      exact afterMetadata_metadata_none _ _ _ hm

/-- C1: whenever the remote call succeeds, the callback returns and the id of the state
handle is the instance GUID, one slash, and the integration id, whatever the response
holds and whatever the host does with the later writes. -/
theorem read_sets_composite_id (env : Env) (w : World) (c : EnClient)
    (result : IntegrationGetResponse)
    (hc : env.EventNotificationsApiV1 = .ok c)
    (hr : c.GetIntegrationWithContext (lookupRequest w.d) = .ok (some result)) :
    ∃ (w' : World) (diags : Diagnostics),
      dataSourceIBMEnIntegrationRead env w = (w', .returned diags) ∧
      w'.d.id = w.d.Get "instance_guid" ++ "/" ++ w.d.Get "integration_id" := by
  obtain ⟨w', diags, h, hid, _⟩ := read_of_remote_ok env w c result hc hr
  exact ⟨w', diags, h, hid⟩

/-- Inputs with blanks, a slash and an escape sequence are joined as they are. -/
theorem read_sets_composite_id_witness :
    (envReturning (.ok (some scenarioResponse)) acceptAll).EventNotificationsApiV1
      = .ok (clientReturning (.ok (some scenarioResponse))) ∧
    (clientReturning (.ok (some scenarioResponse))).GetIntegrationWithContext
      (lookupRequest (freshWorld " a/b " "c%2F").d) = .ok (some scenarioResponse) ∧
    ∃ (w' : World) (diags : Diagnostics),
      dataSourceIBMEnIntegrationRead (envReturning (.ok (some scenarioResponse)) acceptAll)
        (freshWorld " a/b " "c%2F") = (w', .returned diags) ∧
      w'.d.id = " a/b /c%2F" :=
  ⟨rfl, rfl, read_sets_composite_id (envReturning (.ok (some scenarioResponse)) acceptAll)
    (freshWorld " a/b " "c%2F") (clientReturning (.ok (some scenarioResponse))) scenarioResponse
    rfl rfl⟩

/-- C3, as the code has it: when the remote call succeeds with a nil `Metadata`, the
callback does not touch the `metadata` field: its value after the call is its value before
(absent if it was absent), and the id is set.  `type` is set when the host accepts the
`type` write; `updated_at` is set, and no diagnostic returned, when the host accepts the
`type` and `updated_at` writes. -/
theorem read_null_metadata (env : Env) (w : World) (c : EnClient)
    (result : IntegrationGetResponse)
    (hc : env.EventNotificationsApiV1 = .ok c)
    (hr : c.GetIntegrationWithContext (lookupRequest w.d) = .ok (some result))
    (hm : result.Metadata = none) :
    ∃ (w' : World) (diags : Diagnostics),
      dataSourceIBMEnIntegrationRead env w = (w', .returned diags) ∧
      w'.d.field "metadata" = w.d.field "metadata" ∧
      w'.d.id = w.d.Get "instance_guid" ++ "/" ++ w.d.Get "integration_id" ∧
      (env.reject "type" (.strPtr result.Type_) = none →
        w'.d.field "type" = some (.strPtr result.Type_)) ∧
      (env.reject "type" (.strPtr result.Type_) = none →
        env.reject "updated_at" (.str (env.DateTimeToString result.UpdatedAt)) = none →
        diags = [] ∧
        w'.d.field "updated_at" = some (.str (env.DateTimeToString result.UpdatedAt))) := by
  obtain ⟨w', diags, h, hid, _, hmd⟩ := read_of_remote_ok env w c result hc hr
  refine ⟨w', diags, h, hmd hm, hid, fun ht => ?_, fun ht hu => ?_⟩
  · cases hu : env.reject "updated_at" (.str (env.DateTimeToString result.UpdatedAt)) with
    | some err =>
      have h2 := read_eq_of_updated_at_rejected env w c result err hc hr ht hu
      rw [h2] at h
      simp only [Prod.mk.injEq, Outcome.returned.injEq] at h
      obtain ⟨hw, _⟩ := h
      subst hw
      exact afterMetadata_type _ _ _
    | none =>
      have h2 := read_eq_of_success env w c result hc hr ht hu
      rw [h2] at h
      simp only [Prod.mk.injEq, Outcome.returned.injEq] at h
      obtain ⟨hw, _⟩ := h
      subst hw
      simp only [ResourceData.field]
      rw [lookup_setField_ne _ _ _ _ (by decide)]
      exact afterMetadata_type _ _ _
  · have h2 := read_eq_of_success env w c result hc hr ht hu
    rw [h2] at h
    simp only [Prod.mk.injEq, Outcome.returned.injEq] at h
    obtain ⟨hw, hd⟩ := h
    subst hw
    refine ⟨hd.symm, ?_⟩
    simp only [ResourceData.field]
    exact lookup_setField_self _ _ _

/-- A response without metadata on a fresh handle, the host accepting every write:
`metadata` stays absent, the id, `type` and `updated_at` are set. -/
theorem read_null_metadata_witness :
    (envReturning (.ok (some noMetadataResponse)) acceptAll).EventNotificationsApiV1
      = .ok (clientReturning (.ok (some noMetadataResponse))) ∧
    (clientReturning (.ok (some noMetadataResponse))).GetIntegrationWithContext
      (lookupRequest (freshWorld "inst-1" "int-1").d) = .ok (some noMetadataResponse) ∧
    noMetadataResponse.Metadata = none ∧
    ∃ (w' : World) (diags : Diagnostics),
      dataSourceIBMEnIntegrationRead (envReturning (.ok (some noMetadataResponse)) acceptAll)
        (freshWorld "inst-1" "int-1") = (w', .returned diags) ∧
      w'.d.field "metadata" = none ∧
      w'.d.id = "inst-1/int-1" ∧
      (acceptAll "type" (.strPtr (some "kms")) = none →
        w'.d.field "type" = some (.strPtr (some "kms"))) ∧
      (acceptAll "type" (.strPtr (some "kms")) = none →
        acceptAll "updated_at" (.str "2023-01-01T00:00:00Z") = none →
        diags = [] ∧
        w'.d.field "updated_at" = some (.str "2023-01-01T00:00:00Z")) :=
  ⟨rfl, rfl, rfl, read_null_metadata (envReturning (.ok (some noMetadataResponse)) acceptAll)
    (freshWorld "inst-1" "int-1") (clientReturning (.ok (some noMetadataResponse)))
    noMetadataResponse rfl rfl rfl⟩

/-- C3, counterexample: the remote call succeeds with a nil `Metadata` and the host rejects
the `type` write with the error `boom`.  The callback stops with the diagnostic
`Error setting type: boom`: the id is set, but neither `type` nor `updated_at` is. -/
theorem read_null_metadata_type_rejected_counterexample :
    noMetadataResponse.Metadata = none ∧
    dataSourceIBMEnIntegrationRead
        (envReturning (.ok (some noMetadataResponse)) (rejectField "type" ⟨"boom"⟩))
        (freshWorld "inst-1" "int-1") =
      ({ d := { config := [("instance_guid", "inst-1"), ("integration_id", "int-1")],
                id := "inst-1/int-1", fields := [] },
         remoteCalls := [{ InstanceID := some "inst-1", ID := some "int-1" }],
         debugLog := [] },
        .returned [TerraformErrorf ⟨"boom"⟩ "Error setting type: boom"
          "(Data) ibm_en_integration" "read"]) ∧
    (dataSourceIBMEnIntegrationRead
        (envReturning (.ok (some noMetadataResponse)) (rejectField "type" ⟨"boom"⟩))
        (freshWorld "inst-1" "int-1")).1.d.field "type" = none ∧
    (dataSourceIBMEnIntegrationRead
        (envReturning (.ok (some noMetadataResponse)) (rejectField "type" ⟨"boom"⟩))
        (freshWorld "inst-1" "int-1")).1.d.field "updated_at" = none := by
  refine ⟨rfl, ?_, ?_, ?_⟩ <;> decide

/-- A nil result next to a nil error, on a fresh handle for (`inst-1`, `int-1`): the
request is issued, the id is set, and the invocation panics at `result.Type`. -/
theorem read_nil_result_panics :
    dataSourceIBMEnIntegrationRead (envReturning (.ok none) acceptAll)
        (freshWorld "inst-1" "int-1") =
      ({ d := { config := [("instance_guid", "inst-1"), ("integration_id", "int-1")],
                id := "inst-1/int-1", fields := [] },
         remoteCalls := [{ InstanceID := some "inst-1", ID := some "int-1" }],
         debugLog := [] },
        .panicked) := by
  decide

/-- C7: when the remote call succeeds and the host accepts every write, the callback
returns no diagnostics; `type` holds the response's `Type` unchanged, `updated_at` holds the
timestamp conversion of the response's `UpdatedAt`, `metadata` holds the flattened
`Metadata` when there is one, and the id is the composite one. -/
theorem read_success (env : Env) (w : World) (c : EnClient)
    (result : IntegrationGetResponse)
    (hc : env.EventNotificationsApiV1 = .ok c)
    (hr : c.GetIntegrationWithContext (lookupRequest w.d) = .ok (some result))
    (ht : env.reject "type" (.strPtr result.Type_) = none)
    (ha : ∀ md, result.Metadata = some md →
      env.reject "metadata" (.list (enKMSIntegrationFlattenMetadata md)) = none)
    (hu : env.reject "updated_at" (.str (env.DateTimeToString result.UpdatedAt)) = none) :
    ∃ w' : World,
      dataSourceIBMEnIntegrationRead env w = (w', .returned []) ∧
      w'.d.id = w.d.Get "instance_guid" ++ "/" ++ w.d.Get "integration_id" ∧
      w'.d.field "type" = some (.strPtr result.Type_) ∧
      w'.d.field "metadata" =
        (match result.Metadata with
         | some md => some (.list (enKMSIntegrationFlattenMetadata md))
         | none => w.d.field "metadata") ∧
      w'.d.field "updated_at" = some (.str (env.DateTimeToString result.UpdatedAt)) := by
  refine ⟨_, read_eq_of_success env w c result hc hr ht hu, afterMetadata_id _ _ _, ?_, ?_, ?_⟩
  · simp only [ResourceData.field]
    rw [lookup_setField_ne _ _ _ _ (by decide)]
    exact afterMetadata_type _ _ _
  · simp only [ResourceData.field]
    rw [lookup_setField_ne _ _ _ _ (by decide)]
    cases hm : result.Metadata with
    | none => exact afterMetadata_metadata_none _ _ _ hm
    | some md => exact afterMetadata_metadata_some _ _ _ md hm (ha md hm)
  · simp only [ResourceData.field]
    exact lookup_setField_self _ _ _

/-- The scenario of the spec: inputs (`inst-1`, `int-1`) and the `kms` response. -/
theorem read_success_witness :
    (envReturning (.ok (some scenarioResponse)) acceptAll).EventNotificationsApiV1
      = .ok (clientReturning (.ok (some scenarioResponse))) ∧
    (clientReturning (.ok (some scenarioResponse))).GetIntegrationWithContext
      (lookupRequest (freshWorld "inst-1" "int-1").d) = .ok (some scenarioResponse) ∧
    ∃ w' : World,
      dataSourceIBMEnIntegrationRead (envReturning (.ok (some scenarioResponse)) acceptAll)
        (freshWorld "inst-1" "int-1") = (w', .returned []) ∧
      w'.d.id = "inst-1/int-1" ∧
      w'.d.field "type" = some (.strPtr (some "kms")) ∧
      w'.d.field "metadata" =
        some (.list [[("endpoint", some "https://e"), ("crn", some "crn:v1:..."),
                      ("root_key_id", some "key-1")]]) ∧
      w'.d.field "updated_at" = some (.str "2023-01-01T00:00:00Z") :=
  ⟨rfl, rfl, read_success (envReturning (.ok (some scenarioResponse)) acceptAll)
    (freshWorld "inst-1" "int-1") (clientReturning (.ok (some scenarioResponse))) scenarioResponse
    rfl rfl rfl (fun _ _ => rfl) rfl⟩

/-- C2, as the code has it: when the remote call succeeds with a non-nil `Metadata` and the
host accepts the `type` and `metadata` writes, the `metadata` field holds a list of exactly
one map; that map holds `endpoint` (resp. `crn`, `root_key_id`) exactly when the response's
`Endpoint` (resp. `CRN`, `RootKeyID`) is non-nil, with that field as value, and no other
key, so it holds the three keys when the three fields are non-nil. -/
theorem read_metadata_written (env : Env) (w : World) (c : EnClient)
    (result : IntegrationGetResponse) (md : IntegrationMetadata)
    (hc : env.EventNotificationsApiV1 = .ok c)
    (hr : c.GetIntegrationWithContext (lookupRequest w.d) = .ok (some result))
    (hm : result.Metadata = some md)
    (ht : env.reject "type" (.strPtr result.Type_) = none)
    (ha : env.reject "metadata" (.list (enKMSIntegrationFlattenMetadata md)) = none) :
    ∃ (w' : World) (diags : Diagnostics) (mp : GoMap),
      dataSourceIBMEnIntegrationRead env w = (w', .returned diags) ∧
      w'.d.field "metadata" = some (.list [mp]) ∧
      [mp].length = 1 ∧
      ∀ k : String, mp.get k =
        if k = "endpoint" then md.Endpoint.map some
        else if k = "crn" then md.CRN.map some
        else if k = "root_key_id" then md.RootKeyID.map some
        else none := by
  obtain ⟨mp, hf, hk⟩ := flatten_get md
  have hmeta := afterMetadata_metadata_some env.reject w.d result md hm ha
  rw [hf] at hmeta
  cases hu : env.reject "updated_at" (.str (env.DateTimeToString result.UpdatedAt)) with
  | some err =>
    exact ⟨_, _, mp, read_eq_of_updated_at_rejected env w c result err hc hr ht hu,
      hmeta, rfl, hk⟩
  | none =>
    refine ⟨_, _, mp, read_eq_of_success env w c result hc hr ht hu, ?_, rfl, hk⟩
    simp only [ResourceData.field]
    rw [lookup_setField_ne _ _ _ _ (by decide)]
    exact hmeta

/-- A response whose metadata has no endpoint: the written map holds the two other keys. -/
theorem read_metadata_written_witness :
    (envReturning (.ok (some noEndpointResponse)) acceptAll).EventNotificationsApiV1
      = .ok (clientReturning (.ok (some noEndpointResponse))) ∧
    (clientReturning (.ok (some noEndpointResponse))).GetIntegrationWithContext
      (lookupRequest (freshWorld "inst-1" "int-1").d) = .ok (some noEndpointResponse) ∧
    noEndpointResponse.Metadata
      = some { Endpoint := none, CRN := some "crn:v1:...", RootKeyID := some "key-1" } ∧
    ∃ (w' : World) (diags : Diagnostics) (mp : GoMap),
      dataSourceIBMEnIntegrationRead (envReturning (.ok (some noEndpointResponse)) acceptAll)
        (freshWorld "inst-1" "int-1") = (w', .returned diags) ∧
      w'.d.field "metadata" = some (.list [mp]) ∧
      [mp].length = 1 ∧
      ∀ k : String, mp.get k =
        if k = "endpoint" then none
        else if k = "crn" then some (some "crn:v1:...")
        else if k = "root_key_id" then some (some "key-1")
        else none :=
  ⟨rfl, rfl, rfl, read_metadata_written (envReturning (.ok (some noEndpointResponse)) acceptAll)
    (freshWorld "inst-1" "int-1") (clientReturning (.ok (some noEndpointResponse)))
    noEndpointResponse { Endpoint := none, CRN := some "crn:v1:...", RootKeyID := some "key-1" }
    rfl rfl rfl rfl rfl⟩

/-- C2, counterexample: a successful response whose `Metadata` is non-nil but has a nil
`Endpoint` makes the callback write a one-element `metadata` list whose map holds only
`crn` and `root_key_id`: the key `endpoint` is missing. -/
theorem read_metadata_three_keys_counterexample :
    noEndpointResponse.Metadata ≠ none ∧
    ∃ (w' : World) (mp : GoMap),
      dataSourceIBMEnIntegrationRead (envReturning (.ok (some noEndpointResponse)) acceptAll)
        (freshWorld "inst-1" "int-1") = (w', .returned []) ∧
      w'.d.field "metadata" = some (.list [mp]) ∧
      mp.keys = ["crn", "root_key_id"] ∧
      mp.get "endpoint" = none :=
  ⟨by decide, _, _, rfl, rfl, rfl, rfl⟩

/-! ## The read callback: a write the host rejects -/

/-- The `type` and `updated_at` steps do stop the callback: a rejected `type` write is
reported under `Error setting type` with nothing but the id set, and a rejected `updated_at`
write is reported under `Error setting updated_at` with that field left unwritten. -/
theorem read_rejected_write_reported (env : Env) (w : World) (c : EnClient)
    (result : IntegrationGetResponse) (err : GoError)
    (hc : env.EventNotificationsApiV1 = .ok c)
    (hr : c.GetIntegrationWithContext (lookupRequest w.d) = .ok (some result)) :
    (env.reject "type" (.strPtr result.Type_) = some err →
      ∃ w' : World,
        dataSourceIBMEnIntegrationRead env w =
          (w', .returned [TerraformErrorf err ("Error setting type: " ++ err.Error)
            "(Data) ibm_en_integration" "read"]) ∧
        w'.d.fields = w.d.fields) ∧
    (env.reject "type" (.strPtr result.Type_) = none →
      env.reject "updated_at" (.str (env.DateTimeToString result.UpdatedAt)) = some err →
      ∃ w' : World,
        dataSourceIBMEnIntegrationRead env w =
          (w', .returned [TerraformErrorf err ("Error setting updated_at: " ++ err.Error)
            "(Data) ibm_en_integration" "read"]) ∧
        w'.d.field "updated_at" = w.d.field "updated_at") := by
  refine ⟨fun ht => ⟨_, read_eq_of_type_rejected env w c result err hc hr ht, rfl⟩,
    fun ht hu => ⟨_, read_eq_of_updated_at_rejected env w c result err hc hr ht hu, ?_⟩⟩
  simp only [afterMetadata, ResourceData.field]
  cases result.Metadata with
  | none =>
    simp only [afterType]
    exact lookup_setField_ne _ _ _ _ (by decide)
  | some md =>
    simp only [ResourceData.Set]
    cases env.reject "metadata" (.list (enKMSIntegrationFlattenMetadata md)) with
    | none =>
      simp only [afterType]
      rw [lookup_setField_ne _ _ _ _ (by decide), lookup_setField_ne _ _ _ _ (by decide)]
    | some e =>
      simp only [afterType]
      exact lookup_setField_ne _ _ _ _ (by decide)

/-- C5, at the failing input: the host rejects the `metadata` write with the error `boom`
and accepts the others.  The callback returns no diagnostic at all, the `metadata` field is
left unwritten, and `updated_at` is written all the same. -/
theorem read_metadata_rejected_unreported :
    rejectField "metadata" ⟨"boom"⟩ "metadata"
        (.list (enKMSIntegrationFlattenMetadata
          { Endpoint := some "https://e", CRN := some "crn:v1:...", RootKeyID := some "key-1" }))
      = some ⟨"boom"⟩ ∧
    dataSourceIBMEnIntegrationRead
        (envReturning (.ok (some scenarioResponse)) (rejectField "metadata" ⟨"boom"⟩))
        (freshWorld "inst-1" "int-1") =
      ({ d := { config := [("instance_guid", "inst-1"), ("integration_id", "int-1")],
                id := "inst-1/int-1",
                fields := [("type", .strPtr (some "kms")),
                           ("updated_at", .str "2023-01-01T00:00:00Z")] },
         remoteCalls := [{ InstanceID := some "inst-1", ID := some "int-1" }],
         debugLog := [] },
        .returned []) := by
  constructor <;> decide

/-! ## The read callback: the remote call is issued once -/

/-- C9: in every invocation, whether it returns or panics, at most one get-integration
request is issued: none when the session hands out no client, and otherwise exactly one,
carrying the two inputs as instance id and integration id.  When that one call fails, the
callback returns at once the diagnostic whose text is `GetIntegrationWithContext failed: `
followed by the remote error's message, with the state handle untouched.  When it gives a
nil result with a nil error the invocation panics, and when it gives a result the
invocation returns; the request stays the only one in both cases. -/
theorem read_issues_one_remote_call (env : Env) (w : World) :
    (dataSourceIBMEnIntegrationRead env w).1.remoteCalls.length ≤ w.remoteCalls.length + 1 ∧
    match env.EventNotificationsApiV1 with
    | .error _ => (dataSourceIBMEnIntegrationRead env w).1.remoteCalls = w.remoteCalls
    | .ok c =>
      (dataSourceIBMEnIntegrationRead env w).1.remoteCalls = w.remoteCalls ++
        [{ InstanceID := some (w.d.Get "instance_guid"),
           ID := some (w.d.Get "integration_id") }] ∧
      match c.GetIntegrationWithContext (lookupRequest w.d) with
      | .error err =>
        (dataSourceIBMEnIntegrationRead env w).2 =
          .returned [TerraformErrorf err ("GetIntegrationWithContext failed: " ++ err.Error)
            "(Data) ibm_en_integration" "read"] ∧
        (dataSourceIBMEnIntegrationRead env w).1.d = w.d
      | .ok none => (dataSourceIBMEnIntegrationRead env w).2 = .panicked
      | .ok (some _) => ∃ diags, (dataSourceIBMEnIntegrationRead env w).2 = .returned diags := by
  cases hc : env.EventNotificationsApiV1 with
  | error err =>
    rw [read_eq_of_client_error env w err hc]
    exact ⟨by simp, rfl⟩
  | ok c =>
    cases hr : c.GetIntegrationWithContext (lookupRequest w.d) with
    | error err =>
      rw [read_eq_of_remote_error env w c err hc hr]
      refine ⟨by simp, rfl, ?_⟩
      rw [hr]
      exact ⟨rfl, rfl⟩
    | ok r =>
      cases r with
      | none =>
        rw [read_eq_of_nil_result env w c hc hr]
        refine ⟨by simp, rfl, ?_⟩
        rw [hr]
      | some result =>
        obtain ⟨w', diags, h, _, hcalls, _⟩ := read_of_remote_ok env w c result hc hr
        rw [h]
        refine ⟨by simp [hcalls], hcalls, ?_⟩
        rw [hr]
        exact ⟨diags, rfl⟩

/-! ## The composite id as a key -/

theorem append_cons_inj_of_not_mem_left {α : Type} (c : α) (a a' b b' : List α)
    (ha : c ∉ a) (ha' : c ∉ a') (h : a ++ c :: b = a' ++ c :: b') : a = a' ∧ b = b' := by
  induction a generalizing a' with
  | nil =>
    cases a' with
    | nil => exact ⟨rfl, by simpa using h⟩
    | cons x t =>
      simp only [List.nil_append, List.cons_append, List.cons.injEq] at h
      exact absurd (h.1 ▸ List.mem_cons_self _ _) ha'
  | cons y s ih =>
    cases a' with
    | nil =>
      simp only [List.nil_append, List.cons_append, List.cons.injEq] at h
      exact absurd (h.1 ▸ List.mem_cons_self _ _) ha
    | cons x t =>
      simp only [List.cons_append, List.cons.injEq] at h
      have hs : c ∉ s := fun hm => ha (List.mem_cons_of_mem _ hm)
      have ht : c ∉ t := fun hm => ha' (List.mem_cons_of_mem _ hm)
      obtain ⟨e1, e2⟩ := ih t hs ht h.2
      exact ⟨by rw [h.1, e1], e2⟩

/-- Splitting a list at the last occurrence of a separator is unambiguous. -/
theorem append_cons_inj_of_not_mem_right {α : Type} (c : α) (a a' b b' : List α)
    (hb : c ∉ b) (hb' : c ∉ b') (h : a ++ c :: b = a' ++ c :: b') : a = a' ∧ b = b' := by
  have hrev : b.reverse ++ c :: a.reverse = b'.reverse ++ c :: a'.reverse := by
    have := congrArg List.reverse h
    simpa using this
  obtain ⟨e1, e2⟩ := append_cons_inj_of_not_mem_left c b.reverse b'.reverse a.reverse
    a'.reverse (by simpa using hb) (by simpa using hb') hrev
  exact ⟨List.reverse_injective e2, List.reverse_injective e1⟩

/-- The characters of a composite id. -/
theorem composite_data (g i : String) : (g ++ "/" ++ i).data = g.data ++ '/' :: i.data := by
  simp [String.data_append]

/-- Two composite ids that agree come from the same pair, provided no instance GUID holds a
slash, or no integration id does. -/
theorem composite_inj (g1 i1 g2 i2 : String)
    (hs : ('/' ∉ g1.toList ∧ '/' ∉ g2.toList) ∨ ('/' ∉ i1.toList ∧ '/' ∉ i2.toList))
    (h : g1 ++ "/" ++ i1 = g2 ++ "/" ++ i2) : g1 = g2 ∧ i1 = i2 := by
  have hd : g1.data ++ '/' :: i1.data = g2.data ++ '/' :: i2.data := by
    rw [← composite_data, ← composite_data, h]
  rcases hs with ⟨h1, h2⟩ | ⟨h1, h2⟩
  · obtain ⟨e1, e2⟩ := append_cons_inj_of_not_mem_left '/' _ _ _ _ h1 h2 hd
    exact ⟨String.ext e1, String.ext e2⟩
  · obtain ⟨e1, e2⟩ := append_cons_inj_of_not_mem_right '/' _ _ _ _ h1 h2 hd
    exact ⟨String.ext e1, String.ext e2⟩

/-- C8, as the code has it: when two reads whose remote call succeeded leave the same id,
they were given the same instance GUID and the same integration id, provided neither
instance GUID holds a slash, or neither integration id does. -/
theorem read_composite_id_injective (env1 env2 : Env) (w1 w2 w1' w2' : World)
    (diags1 diags2 : Diagnostics) (c1 c2 : EnClient) (r1 r2 : IntegrationGetResponse)
    (hc1 : env1.EventNotificationsApiV1 = .ok c1)
    (hr1 : c1.GetIntegrationWithContext (lookupRequest w1.d) = .ok (some r1))
    (hc2 : env2.EventNotificationsApiV1 = .ok c2)
    (hr2 : c2.GetIntegrationWithContext (lookupRequest w2.d) = .ok (some r2))
    (h1 : dataSourceIBMEnIntegrationRead env1 w1 = (w1', .returned diags1))
    (h2 : dataSourceIBMEnIntegrationRead env2 w2 = (w2', .returned diags2))
    (hs : ('/' ∉ (w1.d.Get "instance_guid").toList ∧ '/' ∉ (w2.d.Get "instance_guid").toList) ∨
      ('/' ∉ (w1.d.Get "integration_id").toList ∧ '/' ∉ (w2.d.Get "integration_id").toList))
    (hid : w1'.d.id = w2'.d.id) :
    w1.d.Get "instance_guid" = w2.d.Get "instance_guid" ∧
    w1.d.Get "integration_id" = w2.d.Get "integration_id" := by
  obtain ⟨u1, e1, k1, hid1, _⟩ := read_of_remote_ok env1 w1 c1 r1 hc1 hr1
  obtain ⟨u2, e2, k2, hid2, _⟩ := read_of_remote_ok env2 w2 c2 r2 hc2 hr2
  rw [h1] at k1
  rw [h2] at k2
  simp only [Prod.mk.injEq, Outcome.returned.injEq] at k1 k2
  obtain ⟨rfl, _⟩ := k1
  obtain ⟨rfl, _⟩ := k2
  rw [hid1, hid2] at hid
  exact composite_inj _ _ _ _ hs hid

/-- Two reads of the pair (`inst-1`, `int/1`), whose instance GUID is slash-free. -/
theorem read_composite_id_injective_witness :
    (envReturning (.ok (some scenarioResponse)) acceptAll).EventNotificationsApiV1
      = .ok (clientReturning (.ok (some scenarioResponse))) ∧
    (clientReturning (.ok (some scenarioResponse))).GetIntegrationWithContext
      (lookupRequest (freshWorld "inst-1" "int/1").d) = .ok (some scenarioResponse) ∧
    (envReturning (.ok (some noMetadataResponse)) (rejectField "type" ⟨"boom"⟩)).EventNotificationsApiV1
      = .ok (clientReturning (.ok (some noMetadataResponse))) ∧
    (clientReturning (.ok (some noMetadataResponse))).GetIntegrationWithContext
      (lookupRequest (freshWorld "inst-1" "int/1").d) = .ok (some noMetadataResponse) ∧
    (('/' ∉ "inst-1".toList ∧ '/' ∉ "inst-1".toList) ∨
      ('/' ∉ "int/1".toList ∧ '/' ∉ "int/1".toList)) ∧
    (freshWorld "inst-1" "int/1").d.Get "instance_guid"
      = (freshWorld "inst-1" "int/1").d.Get "instance_guid" ∧
    (freshWorld "inst-1" "int/1").d.Get "integration_id"
      = (freshWorld "inst-1" "int/1").d.Get "integration_id" :=
  ⟨rfl, rfl, rfl, rfl, Or.inl ⟨by decide, by decide⟩,
    read_composite_id_injective (envReturning (.ok (some scenarioResponse)) acceptAll)
      (envReturning (.ok (some noMetadataResponse)) (rejectField "type" ⟨"boom"⟩))
      (freshWorld "inst-1" "int/1") (freshWorld "inst-1" "int/1") _ _ _ _
      (clientReturning (.ok (some scenarioResponse))) (clientReturning (.ok (some noMetadataResponse)))
      scenarioResponse noMetadataResponse rfl rfl rfl rfl rfl rfl
      (Or.inl ⟨by decide, by decide⟩) rfl⟩

/-- C8, counterexample: the reads for the pairs (`a/b`, `c`) and (`a`, `b/c`) both succeed
and leave the same id `a/b/c`, although the two instance GUIDs differ and the two
integration ids differ. -/
theorem read_composite_id_collision :
    ∃ w1' w2' : World,
      dataSourceIBMEnIntegrationRead (envReturning (.ok (some scenarioResponse)) acceptAll)
        (freshWorld "a/b" "c") = (w1', .returned []) ∧
      dataSourceIBMEnIntegrationRead (envReturning (.ok (some scenarioResponse)) acceptAll)
        (freshWorld "a" "b/c") = (w2', .returned []) ∧
      w1'.d.id = "a/b/c" ∧ w2'.d.id = "a/b/c" ∧
      (freshWorld "a/b" "c").d.Get "instance_guid" ≠ (freshWorld "a" "b/c").d.Get "instance_guid" ∧
      (freshWorld "a/b" "c").d.Get "integration_id"
        ≠ (freshWorld "a" "b/c").d.Get "integration_id" :=
  ⟨_, _, rfl, rfl, rfl, rfl, by decide, by decide⟩

end EventNotification
